import Mathlib

/-!
Shallow embedding of the eft-library-agent RAG pipeline
(`src/services/rag.py`, `src/tools/llm.py`, `src/tools/history.py`,
`src/tools/retriever.py`, `src/routers/chat.py`, `src/main.py`)
together with proofs about the behaviour its specification claims.

Modelling conventions:
* Python strings are Lean `String`; floats coming back from the database
  are modelled as `ℚ` (every float is a rational, and none of the claims
  depend on float roundoff).
* Async functions are modelled as pure functions over an explicit
  database state plus injected outcomes for the external calls
  (database statements, the embedding/completion HTTP service); a run
  additionally produces the ordered trace of external actions it issued.
* Fallible steps return `Except`.
-/

namespace EftAgent

/-- ChatMessage from `src/schemas/models.py`: `role` is 'user' or 'assistant',
`content` is the message text. -/
structure ChatMessage where
  role : String
  content : String
deriving DecidableEq, Repr

/-- RagDocument from `src/schemas/models.py`. `metadata` is an open key-value
map (modelled as an association list); `similarity` is the float the retriever
computed, modelled as a rational. -/
structure RagDocument where
  source_table : String
  source_id : String
  lang : String
  content : String
  metadata : List (String × String)
  similarity : ℚ
deriving DecidableEq, Repr

/-! ### System prompts (`src/tools/llm.py` lines 11-80), verbatim. -/

def SYSTEM_PROMPT_ko : String :=
  "당신은 Escape from Tarkov 데이터베이스 검색 도구입니다.

[참고 문서 구조 안내]
- [이 아이템을 만드는 방법 (제작법)] : 해당 아이템의 제작 레시피 (결과물, 제작 시간, 필요 재료)
- [이 아이템이 재료로 사용되는 제작] : 이 아이템을 재료로 쓰는 다른 아이템의 제작법
- [제작 레시피] : 은신처 레벨별 제작 가능 목록
- [스펙] : 아이템 기본 스탯 정보
- [퀘스트 보상] : 이 아이템을 보상으로 주는 퀘스트
- [퀘스트 제출 아이템] : 이 아이템을 제출해야 하는 퀘스트
- [상인 교환] : NPC 교환 정보
- [은신처 건설 필요] : 은신처 건설 시 필요한 아이템
- [건설 필요 아이템] : 은신처 레벨 업그레이드에 필요한 재료
- [레벨업 보너스] : 은신처 레벨 달성 시 얻는 보너스
- [목표] : 퀘스트 완료 조건
- [보상] : 퀘스트 완료 보상

[규칙]
1. 반드시 [참고 문서]에 명시된 내용만 답변하세요.
2. [참고 문서]에 없는 내용은 절대 언급하지 마세요.
3. 추측, 보완, 일반 지식, 게임 경험 기반 답변은 절대 금지입니다.
4. [참고 문서]에 없는 질문은 \"제공된 문서에 해당 정보가 없습니다.\"라고만 답하세요.
5. 위 규칙을 어기는 것은 오답입니다."

def SYSTEM_PROMPT_en : String :=
  "You are a database search tool for Escape from Tarkov.

[Document Structure Guide]
- [How to craft this item] : Craft recipe for this item (output, duration, required materials)
- [Used as material in] : Other items that use this item as a crafting material
- [Craft Recipe] : List of craftable items by hideout level
- [Spec] : Basic item stats
- [Quest Reward] : Quests that reward this item
- [Quest Item] : Quests that require submitting this item
- [Barter (NPC)] : NPC barter trade information
- [Required for Hideout] : Items needed for hideout construction
- [Required Items] : Materials needed for hideout level upgrade
- [Level Bonuses] : Bonuses gained upon reaching hideout level
- [Objectives] : Quest completion conditions
- [Rewards] : Quest completion rewards

[Rules]
1. You MUST only use information explicitly stated in the [Reference Documents].
2. NEVER mention anything not found in the [Reference Documents].
3. Guessing, inferring, adding general knowledge, or using game experience is STRICTLY FORBIDDEN.
4. If the answer is not in the [Reference Documents], respond ONLY with: \"That information is not available in the provided documents.\"
5. Violating these rules is an incorrect answer.
IMPORTANT: You MUST respond in English only. Do not use any other language."

def SYSTEM_PROMPT_ja : String :=
  "あなたはEscape from Tarkovのデータベース検索ツールです。

[参考文書の構造案内]
- [このアイテムの製作方法] : このアイテムのクラフトレシピ（結果物、製作時間、必要素材）
- [このアイテムが素材として使われるクラフト] : このアイテムを素材として使う他のアイテムの製作法
- [クラフトレシピ] : 隠れ家レベル別の製作可能リスト
- [スペック] : アイテムの基本ステータス情報
- [クエスト報酬] : このアイテムを報酬として与えるクエスト
- [クエストアイテム] : このアイテムを提出する必要があるクエスト
- [商人交換] : NPC交換情報
- [隠れ家建設に必要] : 隠れ家建設時に必要なアイテム
- [建設必要アイテム] : 隠れ家レベルアップグレードに必要な素材
- [レベルアップボーナス] : 隠れ家レベル達成時に得られるボーナス
- [目標] : クエスト完了条件
- [報酬] : クエスト完了報酬

[ルール]
1. 必ず[参考文書]に明示された内容のみを回答してください。
2. [参考文書]にない内容は絶対に言及しないでください。
3. 推測、補完、一般知識、ゲーム経験に基づく回答は厳禁です。
4. [参考文書]にない質問には「その情報は提供された文書にありません。」とだけ答えてください。
5. 上記ルールを破ることは誤答です。
重要：必ず日本語のみで回答してください。他の言語を使用しないでください。"

/-- SYSTEM_PROMPTS.get(lang, SYSTEM_PROMPTS["ko"]) from `src/tools/llm.py`
lines 88 and 128: the dictionary has keys "ko", "en", "ja" and the lookup
falls back to the Korean prompt. -/
def SYSTEM_PROMPTS_get (lang : String) : String :=
  if lang = "ko" then SYSTEM_PROMPT_ko
  else if lang = "en" then SYSTEM_PROMPT_en
  else if lang = "ja" then SYSTEM_PROMPT_ja
  else SYSTEM_PROMPT_ko

/-! ### chat_llm payload construction (`src/tools/llm.py` lines 83-107, 123-146) -/

/-- Value of `msg_list` after the in-place context injection of
`src/tools/llm.py` lines 90-94 (identically lines 129-133): copy `messages`;
if `context` is non-empty and the list is non-empty and its last element has
role 'user', replace that last element's content by the context-wrapped text. -/
def inject_context (messages : List ChatMessage) (context : String) : List ChatMessage :=
  if context ≠ "" ∧ messages ≠ [] then
    match messages.getLast? with
    | some last =>
      if last.role = "user" then
        messages.dropLast ++
          [⟨last.role, "[참고 문서]\n" ++ context ++ "\n\n질문: " ++ last.content⟩]
      else messages
    | none => messages
  else messages

/-- The `messages` array of the JSON payload that `chat_llm` (lines 96-107)
and `chat_llm_stream` (lines 135-146) actually POST to the completion
service: a system turn built from the selected prompt followed by the turns
rebuilt from the ORIGINAL `messages` argument.  Note the source rebuilds this
list from `messages`, not from the mutated `msg_list`, so the context
injection computed by `inject_context` never reaches the payload. -/
def chat_llm_payload_messages (messages : List ChatMessage) (context : String)
    (lang : String) : List ChatMessage :=
  let _msg_list := inject_context messages context
  ⟨"system", SYSTEM_PROMPTS_get lang⟩ :: messages.map (fun m => ⟨m.role, m.content⟩)

/-! ### build_context (`src/services/rag.py` lines 10-19) -/

/-- One numbered entry of the context string: the f-string of
`src/services/rag.py` line 17. -/
def doc_entry (i : ℕ) (d : RagDocument) : String :=
  "[문서 " ++ toString i ++ "] (출처: " ++ d.source_table ++ ", 유사도: " ++
    toString d.similarity ++ ")\n" ++ d.content

/-- build_context from `src/services/rag.py` lines 10-19: empty input gives
the empty string; otherwise number the documents from 1, format each with
`doc_entry`, and join with a blank line. -/
def build_context (docs : List RagDocument) : String :=
  if docs = [] then ""
  else String.intercalate "\n\n" ((docs.enumFrom 1).map fun p => doc_entry p.1 p.2)

/-! ### Rounding (`round(x, 4)` in `src/tools/retriever.py` line 71)

Python's builtin `round` rounds half to even (banker's rounding). -/

/-- Round a rational to the nearest integer, ties to the even integer,
matching Python's builtin `round(x)`. -/
def roundHalfEven (q : ℚ) : ℤ :=
  if q - (⌊q⌋ : ℚ) < 1 / 2 then ⌊q⌋
  else if 1 / 2 < q - (⌊q⌋ : ℚ) then ⌊q⌋ + 1
  else if 2 ∣ ⌊q⌋ then ⌊q⌋ else ⌊q⌋ + 1

/-- Python `round(x, 4)`: round to the nearest multiple of 1/10000,
ties to even. -/
def round4 (q : ℚ) : ℚ :=
  (roundHalfEven (q * 10000) : ℚ) / 10000

/-! ### Retriever (`src/tools/retriever.py` lines 13-87)

The document store and the pgvector ANN query are external to the Python
source.  The rows of `rag_documents` are `StoredRow`s; the value of the
cosine-distance operator `embedding <=> $1::vector` for a row is supplied as
a function `dist : StoredRow → ℚ` (determined by the row's embedding and the
query embedding; a genuine cosine distance always lies in [0, 2]). -/

/-- One row of the `rag_documents` table (columns used by the query). -/
structure StoredRow where
  source_table : String
  source_id : String
  lang : String
  content : String
  metadata : List (String × String)
deriving DecidableEq, Repr

/-- Modelled from the spec: (§6 vector-indexed store query) the SQL of
`src/tools/retriever.py` lines 27-57 runs in the external database:
filter by `lang` (and by `source_table` when given), order by cosine
distance ascending, truncate to `limit`; the `similarity` column is
`1 - (embedding <=> query)`. -/
def db_ann_query (store : List StoredRow) (dist : StoredRow → ℚ) (lang : String)
    (source_table : Option String) (limit : ℕ) : List StoredRow :=
  let filtered := store.filter fun r =>
    r.lang == lang && (match source_table with
      | some t => r.source_table == t
      | none => true)
  (filtered.insertionSort fun a b => dist a ≤ dist b).take limit

/-- search_rag from `src/tools/retriever.py` lines 13-87: run the ANN query,
then build a `RagDocument` per row with
`similarity = round(float(row.similarity), 4)` (line 71). The query text
itself only matters through the embedding, which the database consumes via
`dist`. -/
def search_rag (store : List StoredRow) (dist : StoredRow → ℚ) (lang : String)
    (limit : ℕ) (source_table : Option String) : List RagDocument :=
  (db_ann_query store dist lang source_table limit).map fun r =>
    { source_table := r.source_table
      source_id := r.source_id
      lang := r.lang
      content := r.content
      metadata := r.metadata
      similarity := round4 (1 - dist r) }

/-- Exact cosine distance between the one-dimensional vectors `[x]` and `[y]`
(no square roots arise in dimension one): `1 - x*y/(|x|*|y|)`.  Witnesses
that the pgvector cosine-distance operator can return values above 1 — for
antipodal embeddings it returns 2. -/
def cosDist1 (x y : ℚ) : ℚ := 1 - x * y / (|x| * |y|)

/-! ### History store (`src/tools/history.py`)

The relational store behind `save_message` / `get_history`.  `created_at`
timestamps are naturals (`NOW()` at insert time is passed in explicitly,
as are the id the insert returns and the injected failure of each SQL
statement — a statement either takes effect or raises a database error). -/

/-- Projection of a retrieved document persisted as provenance on an
assistant message (`src/services/rag.py` lines 58-65 and 108-115). -/
structure SourceDoc where
  source_table : String
  source_id : String
  similarity : ℚ
deriving DecidableEq, Repr

/-- One row of `chat_messages`. -/
structure MessageRow where
  id : ℕ
  session_id : String
  role : String
  content : String
  lang : String
  source_docs : List SourceDoc
  created_at : ℕ
deriving DecidableEq, Repr

/-- One row of `chat_sessions`. -/
structure SessionRow where
  session_id : String
  updated_at : ℕ
deriving DecidableEq, Repr

/-- The relational state the history store operates on. -/
structure DBState where
  chat_messages : List MessageRow
  chat_sessions : List SessionRow
deriving DecidableEq, Repr

/-- Errors of the embedded system, mirroring the Python exception kinds that
can cross the layers: `ValueError` from the role check, database-driver
errors, and HTTP-client errors (embedding or completion service). -/
inductive PErr where
  | validation (msg : String)
  | db (msg : String)
  | http (msg : String)
  | keyError (key : String)
deriving DecidableEq, Repr

/-- How a call to the embedding or completion service can fail: an
httpx-level error (non-2xx status, connection failure), or a Python
`KeyError` from indexing a malformed 2xx JSON body — `resp.json()
["embeddings"]` in `src/tools/embedder.py` line 16 and `result["message"]
["content"]` in `src/tools/llm.py` line 118 raise `KeyError` when the
expected key is absent (spec §6 names malformed bodies as a failure mode). -/
inductive ExtErr where
  | http (msg : String)
  | keyError (key : String)
deriving DecidableEq, Repr

/-- The exception an external-call failure propagates as. -/
def ExtErr.toPErr : ExtErr → PErr
  | .http m => .http m
  | .keyError k => .keyError k

/-- Effect of the INSERT of `src/tools/history.py` lines 21-32: append the
new message row. -/
def db_insert_message (st : DBState) (row : MessageRow) : DBState :=
  { st with chat_messages := st.chat_messages ++ [row] }

/-- Effect of the UPDATE of `src/tools/history.py` lines 34-41: set
`updated_at = NOW()` on the owning session row(s). -/
def db_update_session (st : DBState) (sid : String) (now : ℕ) : DBState :=
  { st with chat_sessions := st.chat_sessions.map fun s =>
      if s.session_id = sid then { s with updated_at := now } else s }

/-- Injected outcomes of the two SQL statements of one `save_message` call:
whether the INSERT raises and whether the UPDATE raises (external database
faults). -/
structure SaveFault where
  insertFails : Bool
  updateFails : Bool
deriving DecidableEq, Repr

/-- save_message from `src/tools/history.py` lines 9-44: validate the role
(`ValueError` otherwise), then run the INSERT and the UPDATE as two separate
statements on one pooled connection — there is no enclosing transaction, so
a statement that succeeded keeps its effect even when a later statement
raises.  Returns the `{id, created_at}` descriptor and the resulting
database state. -/
def save_message (st : DBState) (sid role content lang : String)
    (source_docs : List SourceDoc) (msgId now : ℕ) (fault : SaveFault) :
    Except PErr (ℕ × ℕ) × DBState :=
  if role ≠ "user" ∧ role ≠ "assistant" then
    (.error (.validation ("role은 user 또는 assistant만 가능합니다. 입력값: " ++ role)), st)
  else if fault.insertFails then (.error (.db "insert failed"), st)
  else
    let st1 := db_insert_message st ⟨msgId, sid, role, content, lang, source_docs, now⟩
    if fault.updateFails then (.error (.db "update failed"), st1)
    else (.ok (msgId, now), db_update_session st1 sid now)

/-- The window the inner query of `src/tools/history.py` lines 54-61
produces: the session's messages ordered by `created_at DESC`, truncated to
`limit` — i.e. the most recent `limit` messages, newest first. -/
def history_window (st : DBState) (sid : String) (limit : ℕ) : List MessageRow :=
  ((st.chat_messages.filter fun m => m.session_id == sid).insertionSort
    fun a b => b.created_at ≤ a.created_at).take limit

/-- get_history from `src/tools/history.py` lines 47-70: the outer query
reorders the window by `created_at ASC` and projects to `(role, content)`;
rows become `ChatMessage`s. -/
def get_history (st : DBState) (sid : String) (limit : ℕ) : List ChatMessage :=
  ((history_window st sid limit).insertionSort
    fun a b => a.created_at ≤ b.created_at).map fun m => ⟨m.role, m.content⟩

/-- Rows of `get_history` before the `(role, content)` projection. -/
def get_history_rows (st : DBState) (sid : String) (limit : ℕ) : List MessageRow :=
  (history_window st sid limit).insertionSort fun a b => a.created_at ≤ b.created_at

/-! ### Streaming decode (`src/tools/llm.py` lines 148-169)

The upstream newline-delimited body is a list of items: blank lines (skipped
by `if not line: continue`), parsed JSON lines carrying a content delta and a
done flag, or the point at which the HTTP iteration raises. -/

/-- One item of the upstream streaming response, in arrival order. -/
inductive StreamItem where
  | blank
  | line (content : String) (done : Bool)
  | netError (msg : String)
deriving DecidableEq, Repr

/-- How the streaming generator terminates: normal completion (upstream done
flag or exhaustion) or a raised error. -/
inductive StreamEnd where
  | completed
  | failed (msg : String)
deriving DecidableEq, Repr

/-- chat_llm_stream's consumption loop (`src/tools/llm.py` lines 156-169):
skip blank lines; yield each non-empty content delta; stop at the first line
with `done` set; an HTTP error mid-iteration propagates after the deltas
already yielded.  Result: the yielded deltas and how the generator ended. -/
def chat_llm_stream_decode : List StreamItem → List String × StreamEnd
  | [] => ([], .completed)
  | .blank :: rest => chat_llm_stream_decode rest
  | .netError m :: _ => ([], .failed m)
  | .line c d :: rest =>
    let ys := if c ≠ "" then [c] else []
    if d then (ys, .completed)
    else
      let p := chat_llm_stream_decode rest
      (ys ++ p.1, p.2)

/-! ### Pipeline orchestrator (`src/services/rag.py` lines 22-130) -/

/-- External calls a pipeline run issues, in program order. -/
inductive Action where
  | getHistory (sid : String) (limit : ℕ)
  | saveMessage (sid role content lang : String) (docs : List SourceDoc)
  | searchRag (query lang : String) (limit : ℕ) (source_table : Option String)
  | llmChat (payload : List ChatMessage) (stream : Bool)
deriving DecidableEq, Repr

/-- Environment of one pipeline run: the initial database state, the
document store with the cosine distances of its rows to the query embedding,
and the injected outcomes of every external call. -/
structure PipelineEnv where
  db0 : DBState
  histFault : Bool
  userFault : SaveFault
  store : List StoredRow
  dist : StoredRow → ℚ
  retrievalFault : Option ExtErr
  llmRes : Except ExtErr String
  llmLines : List StreamItem
  asstFault : SaveFault
  id1 : ℕ
  now1 : ℕ
  id2 : ℕ
  now2 : ℕ

/-- Provenance projection of `src/services/rag.py` lines 58-65 / 108-115. -/
def project_docs (docs : List RagDocument) : List SourceDoc :=
  docs.map fun d => ⟨d.source_table, d.source_id, d.similarity⟩

/-- Result of the blocking pipeline: the returned `{answer, docs}` or the
propagated error, the trace of external calls, and the final database
state. -/
structure RunResult where
  res : Except PErr (String × List RagDocument)
  trace : List Action
  db : DBState

/-- run_rag_pipeline from `src/services/rag.py` lines 22-72, steps in source
order: history fetch, user save, retrieval, context build, blocking LLM call
(note the call on line 55 passes no `lang`, so `chat_llm` uses its default
"ko"), assistant save.  Each step that fails propagates immediately. -/
def run_rag_pipeline (env : PipelineEnv) (sid query lang : String)
    (rag_limit history_limit : ℕ) (source_table : Option String) : RunResult :=
  let tr0 := [Action.getHistory sid history_limit]
  if env.histFault then ⟨.error (.db "history query failed"), tr0, env.db0⟩
  else
    let history := get_history env.db0 sid history_limit
    let tr1 := tr0 ++ [Action.saveMessage sid "user" query lang []]
    match save_message env.db0 sid "user" query lang [] env.id1 env.now1 env.userFault with
    | (.error e, db1) => ⟨.error e, tr1, db1⟩
    | (.ok _, db1) =>
      let tr2 := tr1 ++ [Action.searchRag query lang rag_limit source_table]
      match env.retrievalFault with
      | some m => ⟨.error m.toPErr, tr2, db1⟩
      | none =>
        let docs := search_rag env.store env.dist lang rag_limit source_table
        let context := build_context docs
        let messages := history ++ [ChatMessage.mk "user" query]
        let payload := chat_llm_payload_messages messages context "ko"
        let tr3 := tr2 ++ [Action.llmChat payload false]
        match env.llmRes with
        | .error m => ⟨.error m.toPErr, tr3, db1⟩
        | .ok answer =>
          let sdocs := project_docs docs
          let tr4 := tr3 ++ [Action.saveMessage sid "assistant" answer lang sdocs]
          match save_message db1 sid "assistant" answer lang sdocs env.id2 env.now2 env.asstFault with
          | (.error e, db2) => ⟨.error e, tr4, db2⟩
          | (.ok _, db2) => ⟨.ok (answer, docs), tr4, db2⟩

/-- One server-sent event of the streaming pipeline
(`src/services/rag.py` lines 116, 123, 126). -/
inductive Event where
  | docs (ds : List SourceDoc)
  | token (content : String)
  | done
deriving DecidableEq, Repr

/-- Result of the streaming pipeline: the events emitted before returning or
raising, the error if one was raised, the trace, and the final database
state. -/
structure StreamRunResult where
  events : List Event
  err : Option PErr
  trace : List Action
  db : DBState

/-- run_rag_pipeline_stream from `src/services/rag.py` lines 75-130: history
fetch, user save, retrieval, context build, one `docs` event, then the
streaming LLM call (line 121, again without `lang`), one `token` event per
delta while accumulating `full_answer`, then the `done` event, then the
assistant save.  An error propagates immediately; events already yielded
stay yielded. -/
def run_rag_pipeline_stream (env : PipelineEnv) (sid query lang : String)
    (rag_limit history_limit : ℕ) (source_table : Option String) : StreamRunResult :=
  let tr0 := [Action.getHistory sid history_limit]
  if env.histFault then ⟨[], some (.db "history query failed"), tr0, env.db0⟩
  else
    let history := get_history env.db0 sid history_limit
    let tr1 := tr0 ++ [Action.saveMessage sid "user" query lang []]
    match save_message env.db0 sid "user" query lang [] env.id1 env.now1 env.userFault with
    | (.error e, db1) => ⟨[], some e, tr1, db1⟩
    | (.ok _, db1) =>
      let tr2 := tr1 ++ [Action.searchRag query lang rag_limit source_table]
      match env.retrievalFault with
      | some m => ⟨[], some m.toPErr, tr2, db1⟩
      | none =>
        let docs := search_rag env.store env.dist lang rag_limit source_table
        let context := build_context docs
        let sdocs := project_docs docs
        let ev1 := [Event.docs sdocs]
        let messages := history ++ [ChatMessage.mk "user" query]
        let payload := chat_llm_payload_messages messages context "ko"
        let tr3 := tr2 ++ [Action.llmChat payload true]
        let dec := chat_llm_stream_decode env.llmLines
        let ev2 := ev1 ++ dec.1.map Event.token
        match dec.2 with
        | .failed m => ⟨ev2, some (.http m), tr3, db1⟩
        | .completed =>
          let full_answer := String.join dec.1
          let ev3 := ev2 ++ [Event.done]
          let tr4 := tr3 ++ [Action.saveMessage sid "assistant" full_answer lang sdocs]
          match save_message db1 sid "assistant" full_answer lang sdocs env.id2 env.now2 env.asstFault with
          | (.error e, db2) => ⟨ev3, some e, tr4, db2⟩
          | (.ok _, db2) => ⟨ev3, none, tr4, db2⟩

/-! ### HTTP endpoints (`src/main.py` lines 69-87, `src/routers/chat.py`
lines 25-39) -/

/-- The JSON body of a chat request; `none` marks an absent field. -/
structure RequestBody where
  session_id : Option String
  query : Option String
  lang : Option String
  rag_limit : Option ℕ
  history_limit : Option ℕ
  source_table : Option String
deriving DecidableEq, Repr

/-- Response of the synchronous chat endpoints, by fault class:
`success` is the 200 body `{answer, docs}`, `paramMissing` the 422
parameter-missing response, `serverFault` the 500 response whose detail is
`str(e)`. -/
inductive ChatEndpointResponse where
  | success (answer : String) (docs : List RagDocument)
  | paramMissing (field : String)
  | serverFault (detail : String)
deriving DecidableEq, Repr

/-- HTTP status of each response class. -/
def ChatEndpointResponse.status : ChatEndpointResponse → ℕ
  | .success _ _ => 200
  | .paramMissing _ => 422
  | .serverFault _ => 500

/-- Python `str(e)` of the exceptions the pipeline can raise (for a
`KeyError`, the repr of the missing key). -/
def errMessage : PErr → String
  | .validation m => m
  | .db m => m
  | .http m => m
  | .keyError k => "'" ++ k ++ "'"

/-- rag_chat from `src/main.py` lines 69-87: `body["session_id"]` and
`body["query"]` raise `KeyError` when absent; the remaining fields use
`.get` defaults ("ko", 5, 10, None).  The `except KeyError` clause wraps the
WHOLE `try` block, so it catches not only the missing-field `KeyError`s but
also any `KeyError` propagating out of `run_rag_pipeline` (a malformed 2xx
body from the embedding or completion service), returning all of them as
the 422 parameter-missing response; every other exception is mapped to a
500 response with `str(e)` as its detail. -/
def rag_chat (env : PipelineEnv) (body : RequestBody) : ChatEndpointResponse :=
  match body.session_id with
  | none => .paramMissing "session_id"
  | some sid =>
    match body.query with
    | none => .paramMissing "query"
    | some q =>
      let r := run_rag_pipeline env sid q (body.lang.getD "ko")
        (body.rag_limit.getD 5) (body.history_limit.getD 10) body.source_table
      match r.res with
      | .ok (answer, docs) => .success answer docs
      | .error (.keyError k) => .paramMissing k
      | .error e => .serverFault (errMessage e)

/-- The `/chat` route of `src/routers/chat.py` lines 25-39.  Modelled from
the spec for the framework part: FastAPI validates the `ChatRequest` model
before the handler runs, rejecting a body missing a required field
(`session_id`, `query`) with a 422 validation response; the handler itself
maps any pipeline exception to `HTTPException(500, str(e))`. -/
def chat_route (env : PipelineEnv) (body : RequestBody) : ChatEndpointResponse :=
  match body.session_id with
  | none => .paramMissing "session_id"
  | some sid =>
    match body.query with
    | none => .paramMissing "query"
    | some q =>
      let r := run_rag_pipeline env sid q (body.lang.getD "ko")
        (body.rag_limit.getD 5) (body.history_limit.getD 10) body.source_table
      match r.res with
      | .ok (answer, docs) => .success answer docs
      | .error e => .serverFault (errMessage e)

/-! ### Auxiliary notions used by the statements -/

/-- String containment: the needle occurs contiguously inside the hay. -/
def containsStr (hay needle : String) : Prop := needle.data <:+: hay.data

instance (h n : String) : Decidable (containsStr h n) := by
  unfold containsStr; infer_instance

/-- Contents of the `token` events of an event sequence, in emission order. -/
def tokensOf (events : List Event) : List String :=
  events.filterMap fun e => match e with
    | .token c => some c
    | _ => none

/-- A concrete document store row used by concrete evaluations. -/
def row0 : StoredRow :=
  ⟨"boss_summary", "b1", "ko", "보스는 해안가에서 스폰됩니다.", [("boss_name", "킬라")]⟩

/-- A concrete retrieved document used by concrete evaluations. -/
def doc0 : RagDocument :=
  ⟨"boss_summary", "b1", "ko", "보스는 해안가에서 스폰됩니다.", [("boss_name", "킬라")], 1/2⟩

/-- A concrete fault-free pipeline environment used by concrete evaluations:
one known session, an empty message log, one stored document at cosine
distance 1/4 from the query, and a completion service that streams two
deltas and then reports done. -/
def envBase : PipelineEnv where
  db0 := ⟨[], [⟨"S1", 0⟩]⟩
  histFault := false
  userFault := ⟨false, false⟩
  store := [row0]
  dist := fun _ => 1/4
  retrievalFault := none
  llmRes := .ok "해안가에서 스폰됩니다."
  llmLines := [.line "해안가에서 " false, .blank, .line "스폰됩니다." true]
  asstFault := ⟨false, false⟩
  id1 := 1
  now1 := 10
  id2 := 2
  now2 := 20

/-- A concrete fault-free pipeline environment with an empty document store,
used by concrete evaluations. -/
def envNoDocs : PipelineEnv where
  db0 := ⟨[], [⟨"S1", 0⟩]⟩
  histFault := false
  userFault := ⟨false, false⟩
  store := []
  dist := fun _ => 1/4
  retrievalFault := none
  llmRes := .ok "제공된 문서에 해당 정보가 없습니다."
  llmLines := [.line "제공된 문서에 해당 정보가 없습니다." true]
  asstFault := ⟨false, false⟩
  id1 := 1
  now1 := 10
  id2 := 2
  now2 := 20

/-! ## Theorems

First the helper lemmas (rounding, sorting), then one theorem per claim of
the specification, each preceded by a doc comment naming the claim. -/

theorem roundHalfEven_bounds (q : ℚ) : (⌊q⌋ : ℤ) ≤ roundHalfEven q ∧ roundHalfEven q ≤ ⌊q⌋ + 1 := by
  unfold roundHalfEven
  split_ifs <;> omega

theorem roundHalfEven_mono {a b : ℚ} (h : a ≤ b) : roundHalfEven a ≤ roundHalfEven b := by
  have hf : ⌊a⌋ ≤ ⌊b⌋ := Int.floor_le_floor h
  rcases lt_or_eq_of_le hf with hlt | heq
  · calc roundHalfEven a ≤ ⌊a⌋ + 1 := (roundHalfEven_bounds a).2
    _ ≤ ⌊b⌋ := by omega
    _ ≤ roundHalfEven b := (roundHalfEven_bounds b).1
  · have hr : a - (⌊a⌋ : ℚ) ≤ b - (⌊b⌋ : ℚ) := by
      rw [← heq]; linarith
    unfold roundHalfEven
    rw [heq] at hr ⊢
    split_ifs <;> first | omega | linarith

theorem roundHalfEven_intCast (n : ℤ) : roundHalfEven (n : ℚ) = n := by
  unfold roundHalfEven
  simp only [Int.floor_intCast]
  have : (n : ℚ) - (n : ℚ) = 0 := by ring
  rw [this]
  norm_num

theorem round4_mono {a b : ℚ} (h : a ≤ b) : round4 a ≤ round4 b := by
  unfold round4
  have : roundHalfEven (a * 10000) ≤ roundHalfEven (b * 10000) :=
    roundHalfEven_mono (by linarith)
  have hc : ((roundHalfEven (a * 10000) : ℚ)) ≤ ((roundHalfEven (b * 10000) : ℚ)) :=
    Int.cast_le.mpr this
  linarith

theorem round4_neg_one : round4 (-1) = -1 := by
  unfold round4
  norm_num
  rw [show ((-10000 : ℚ)) = ((-10000 : ℤ) : ℚ) by norm_num, roundHalfEven_intCast]
  norm_num

theorem round4_one : round4 1 = 1 := by
  unfold round4
  norm_num
  rw [show ((10000 : ℚ)) = ((10000 : ℤ) : ℚ) by norm_num, roundHalfEven_intCast]
  norm_num

theorem cosDist1_one_neg_one : cosDist1 1 (-1) = 2 := by
  unfold cosDist1
  norm_num

/-- C9: `build_context` is a pure deterministic function; on the empty list
it returns the empty string (never placeholder text); on a non-empty list it
numbers documents starting at 1, formats each with source attribution and
similarity followed by its content, and joins the entries with a blank line;
in particular `build_context [d]` has `d.content` verbatim as a suffix and
contains the literal index "1". -/
theorem C9_build_context_pure_formatter :
    build_context [] = "" ∧
    (∀ docs : List RagDocument, docs ≠ [] →
      build_context docs =
        String.intercalate "\n\n" ((docs.enumFrom 1).map fun p => doc_entry p.1 p.2)) ∧
    (∀ d : RagDocument,
      build_context [d] =
        "[문서 " ++ "1" ++ "] (출처: " ++ d.source_table ++ ", 유사도: " ++
          toString d.similarity ++ ")\n" ++ d.content) ∧
    (∀ d : RagDocument, ∃ p, build_context [d] = p ++ d.content) ∧
    (∀ d : RagDocument, ∃ q r, build_context [d] = q ++ "1" ++ r) := by
  have hone : (toString (1 : ℕ)) = "1" := rfl
  have hd : ∀ d : RagDocument, build_context [d] = doc_entry 1 d := fun d => rfl
  refine ⟨rfl, fun docs h => by simp only [build_context, if_neg h],
    fun d => by rw [hd d]; unfold doc_entry; rw [hone],
    fun d => ⟨"[문서 " ++ "1" ++ "] (출처: " ++ d.source_table ++ ", 유사도: " ++
      toString d.similarity ++ ")\n", by rw [hd d]; unfold doc_entry; rw [hone]⟩,
    fun d => ⟨"[문서 ", "] (출처: " ++ d.source_table ++ ", 유사도: " ++
      toString d.similarity ++ ")\n" ++ d.content, ?_⟩⟩
  rw [hd d]; unfold doc_entry; rw [hone]
  simp only [String.append_assoc]

/-- Witness for C9: the non-empty branch applied to a concrete document. -/
theorem C9_build_context_pure_formatter_witness :
    build_context [doc0] =
      String.intercalate "\n\n" (([doc0].enumFrom 1).map fun p => doc_entry p.1 p.2) :=
  C9_build_context_pure_formatter.2.1 [doc0] (by decide)

set_option maxRecDepth 100000 in
/-- C1: refuted — the claim says the context text reaches the outgoing
messages payload, but `chat_llm`/`chat_llm_stream` build the context-injected
`msg_list` and then rebuild the payload from the ORIGINAL `messages`
(`src/tools/llm.py` lines 96-107 and 135-146), so the payload is independent
of `context`; at the concrete failing input the context text occurs in the
dead `msg_list` value but nowhere in the payload. -/
theorem C1_context_never_reaches_payload :
    (∀ messages context lang,
      chat_llm_payload_messages messages context lang =
        chat_llm_payload_messages messages "" lang) ∧
    chat_llm_payload_messages [ChatMessage.mk "user" "보스 어디서 나와?"] "CTX_MARKER" "ko" =
      [ChatMessage.mk "system" (SYSTEM_PROMPTS_get "ko"),
        ChatMessage.mk "user" "보스 어디서 나와?"] ∧
    ¬ containsStr (SYSTEM_PROMPTS_get "ko") "CTX_MARKER" ∧
    ¬ containsStr "보스 어디서 나와?" "CTX_MARKER" ∧
    inject_context [ChatMessage.mk "user" "보스 어디서 나와?"] "CTX_MARKER" =
      [ChatMessage.mk "user"
        ("[참고 문서]\n" ++ "CTX_MARKER" ++ "\n\n질문: " ++ "보스 어디서 나와?")] ∧
    containsStr ("[참고 문서]\n" ++ "CTX_MARKER" ++ "\n\n질문: " ++ "보스 어디서 나와?")
      "CTX_MARKER" :=
  ⟨fun _ _ _ => rfl, by decide, by decide, by decide, by decide, by decide⟩

/-- C2: refuted — the claim says the system prompt is keyed by the pipeline's
`lang`; but both `run_rag_pipeline` (line 55) and `run_rag_pipeline_stream`
(line 121) call the LLM client without passing `lang`, so every completion
request carries the default Korean prompt regardless of the run's `lang`;
the Korean and English prompts differ, so a run with `lang = "en"` sends the
wrong prompt. -/
theorem C2_system_prompt_ignores_pipeline_lang :
    (∀ env sid query lang rl hl stbl p s,
      Action.llmChat p s ∈ (run_rag_pipeline env sid query lang rl hl stbl).trace →
        p.head? = some (ChatMessage.mk "system" (SYSTEM_PROMPTS_get "ko"))) ∧
    (∀ env sid query lang rl hl stbl p s,
      Action.llmChat p s ∈ (run_rag_pipeline_stream env sid query lang rl hl stbl).trace →
        p.head? = some (ChatMessage.mk "system" (SYSTEM_PROMPTS_get "ko"))) ∧
    SYSTEM_PROMPTS_get "en" ≠ SYSTEM_PROMPTS_get "ko" := by
  refine ⟨?_, ?_, by decide⟩
  · intro env sid query lang rl hl stbl p s h
    unfold run_rag_pipeline at h
    dsimp only at h
    split at h
    · simp at h
    · split at h
      · simp at h
      · split at h
        · simp at h
        · split at h
          · simp at h
            rw [h.1]; rfl
          · split at h <;>
              (simp at h; rw [h.1]; rfl)
  · intro env sid query lang rl hl stbl p s h
    unfold run_rag_pipeline_stream at h
    dsimp only at h
    split at h
    · simp at h
    · split at h
      · simp at h
      · split at h
        · simp at h
        · split at h
          · simp at h
            rw [h.1]; rfl
          · split at h <;>
              (simp at h; rw [h.1]; rfl)

set_option maxRecDepth 100000 in
/-- Witness for C2: a pipeline run with `lang = "en"` issues an LLM call, and
its payload opens with the Korean default system prompt. -/
theorem C2_system_prompt_ignores_pipeline_lang_witness :
    ([ChatMessage.mk "system" (SYSTEM_PROMPTS_get "ko"),
      ChatMessage.mk "user" "Where does the boss spawn?"] : List ChatMessage).head? =
      some (ChatMessage.mk "system" (SYSTEM_PROMPTS_get "ko")) :=
  C2_system_prompt_ignores_pipeline_lang.1 envNoDocs "S1" "Where does the boss spawn?"
    "en" 5 10 none
    [ChatMessage.mk "system" (SYSTEM_PROMPTS_get "ko"),
      ChatMessage.mk "user" "Where does the boss spawn?"] false (by decide)

/-- C3 counterexample: the two writes of `save_message` are NOT one logical
unit — `src/tools/history.py` runs the INSERT and the UPDATE as two
autocommitted statements with no transaction, so when the session-stamp
UPDATE fails after a successful INSERT the error is raised but the message
row is already persisted while the session's `updated_at` is not bumped:
exactly the partial failure the claim rules out. -/
theorem C3_counterexample_partial_write :
    (save_message ⟨[], [⟨"S1", 0⟩]⟩ "S1" "user" "안녕하세요" "ko" [] 1 10
        ⟨false, true⟩).1 = .error (.db "update failed") ∧
    (save_message ⟨[], [⟨"S1", 0⟩]⟩ "S1" "user" "안녕하세요" "ko" [] 1 10
        ⟨false, true⟩).2.chat_messages = [⟨1, "S1", "user", "안녕하세요", "ko", [], 10⟩] ∧
    (save_message ⟨[], [⟨"S1", 0⟩]⟩ "S1" "user" "안녕하세요" "ko" [] 1 10
        ⟨false, true⟩).2.chat_sessions = [⟨"S1", 0⟩] := by
  refine ⟨rfl, rfl, rfl⟩

/-- C3 (amended): `save_message` runs the message INSERT and the session
`updated_at` UPDATE sequentially without a transaction.  On full success
both effects apply; a failing INSERT leaves the store unchanged; a failing
UPDATE after a successful INSERT leaves the message persisted without the
session bump; and every statement failure is surfaced to the caller as a
raised database error (the call never reports success), though as the
driver's exception — the code defines no dedicated PersistenceError type. -/
theorem C3_save_message_sequential_not_atomic :
    ∀ (st : DBState) (sid role content lang : String) (docs : List SourceDoc)
      (msgId now : ℕ) (fault : SaveFault),
      role = "user" ∨ role = "assistant" →
      (fault.insertFails = false → fault.updateFails = false →
        (save_message st sid role content lang docs msgId now fault).1 = .ok (msgId, now) ∧
        (save_message st sid role content lang docs msgId now fault).2 =
          db_update_session
            (db_insert_message st ⟨msgId, sid, role, content, lang, docs, now⟩) sid now) ∧
      (fault.insertFails = true →
        (save_message st sid role content lang docs msgId now fault).1 = .error (.db "insert failed") ∧
        (save_message st sid role content lang docs msgId now fault).2 = st) ∧
      (fault.insertFails = false → fault.updateFails = true →
        (save_message st sid role content lang docs msgId now fault).1 = .error (.db "update failed") ∧
        (save_message st sid role content lang docs msgId now fault).2 =
          db_insert_message st ⟨msgId, sid, role, content, lang, docs, now⟩) ∧
      ((fault.insertFails = true ∨ fault.updateFails = true) →
        ∀ v, (save_message st sid role content lang docs msgId now fault).1 ≠ .ok v) := by
  intro st sid role content lang docs msgId now fault hrole
  have hcond : ¬(role ≠ "user" ∧ role ≠ "assistant") := by
    rcases hrole with h | h <;> simp [h]
  unfold save_message
  rw [if_neg hcond]
  rcases fault with ⟨fi, fu⟩
  cases fi <;> cases fu <;> simp

/-- Witness for C3: a fault-free save applies both effects and reports the
inserted id and timestamp. -/
theorem C3_save_message_sequential_not_atomic_witness :
    (save_message ⟨[], [⟨"S1", 0⟩]⟩ "S1" "user" "안녕하세요" "ko" [] 1 10
        ⟨false, false⟩).1 = .ok (1, 10) ∧
    (save_message ⟨[], [⟨"S1", 0⟩]⟩ "S1" "user" "안녕하세요" "ko" [] 1 10
        ⟨false, false⟩).2 =
      db_update_session
        (db_insert_message ⟨[], [⟨"S1", 0⟩]⟩ ⟨1, "S1", "user", "안녕하세요", "ko", [], 10⟩)
        "S1" 10 :=
  (C3_save_message_sequential_not_atomic ⟨[], [⟨"S1", 0⟩]⟩ "S1" "user" "안녕하세요" "ko"
    [] 1 10 ⟨false, false⟩ (Or.inl rfl)).1 rfl rfl

/-- C6 counterexample: similarity is NOT always in [0, 1].  The code computes
`round(1 - cosine_distance, 4)` with no clamping, and the cosine distance of
antipodal embeddings is 2 (exhibited exactly by the one-dimensional vectors
[1] and [-1], where no square roots arise), so a stored document whose
embedding is antipodal to the query embedding comes back with similarity
-1 < 0. -/
theorem C6_counterexample_negative_similarity :
    cosDist1 1 (-1) = 2 ∧
    (search_rag [row0] (fun _ => cosDist1 1 (-1)) "ko" 5 none).map
        RagDocument.similarity = [-1] := by
  refine ⟨cosDist1_one_neg_one, ?_⟩
  unfold search_rag db_ann_query
  simp only [cosDist1_one_neg_one, List.filter, List.insertionSort, List.orderedInsert,
    List.take, List.map, row0]
  norm_num
  exact round4_neg_one

/-- C6 (amended): every returned document's similarity lies in [-1, 1] (not
[0, 1]: a cosine distance in (1, 2] gives a negative similarity) and equals
1 minus that row's cosine distance rounded to 4 decimal places; the returned
sequence is sorted by non-increasing similarity; and its length is at most
the requested limit. -/
theorem C6_search_rag_rounded_sorted_limited :
    ∀ (store : List StoredRow) (dist : StoredRow → ℚ) (lang : String)
      (limit : ℕ) (stbl : Option String),
      (∀ r ∈ store, 0 ≤ dist r ∧ dist r ≤ 2) →
      (search_rag store dist lang limit stbl).length ≤ limit ∧
      ((search_rag store dist lang limit stbl).map RagDocument.similarity).Sorted (· ≥ ·) ∧
      (∀ d ∈ search_rag store dist lang limit stbl,
        -1 ≤ d.similarity ∧ d.similarity ≤ 1 ∧
        ∃ r ∈ store, d.similarity = round4 (1 - dist r)) := by
  intro store dist lang limit stbl hrange
  haveI : IsTotal StoredRow (fun a b => dist a ≤ dist b) :=
    ⟨fun a b => le_total (dist a) (dist b)⟩
  haveI : IsTrans StoredRow (fun a b => dist a ≤ dist b) :=
    ⟨fun _ _ _ hab hbc => le_trans hab hbc⟩
  refine ⟨?_, ?_, ?_⟩
  · calc (search_rag store dist lang limit stbl).length
        = (db_ann_query store dist lang stbl limit).length := List.length_map _ _
    _ ≤ limit := by
        unfold db_ann_query
        rw [List.length_take]
        exact min_le_left _ _
  · have hsorted : (db_ann_query store dist lang stbl limit).Pairwise
        (fun a b => dist a ≤ dist b) := by
      unfold db_ann_query
      exact ((List.sorted_insertionSort _ _).sublist (List.take_sublist _ _))
    unfold search_rag
    rw [List.map_map]
    exact hsorted.map _ fun a b hab => by
      simp only [Function.comp]
      exact round4_mono (by linarith)
  · intro d hd
    unfold search_rag at hd
    obtain ⟨r, hr, rfl⟩ := List.mem_map.mp hd
    have hrstore : r ∈ store := by
      have h1 : r ∈ db_ann_query store dist lang stbl limit := hr
      unfold db_ann_query at h1
      have h2 := (List.take_sublist _ _).subset h1
      rw [List.mem_insertionSort] at h2
      exact (List.mem_filter.mp h2).1
    obtain ⟨h0, h2⟩ := hrange r hrstore
    refine ⟨?_, ?_, r, hrstore, rfl⟩
    · have := round4_mono (show (-1 : ℚ) ≤ 1 - dist r by linarith)
      simpa [round4_neg_one] using this
    · have := round4_mono (show (1 : ℚ) - dist r ≤ 1 by linarith)
      simpa [round4_one] using this

/-- Witness for C6: a one-document store at cosine distance 1/4 satisfies the
range hypothesis and returns at most the requested five documents. -/
theorem C6_search_rag_rounded_sorted_limited_witness :
    (search_rag [row0] (fun _ => (1 : ℚ)/4) "ko" 5 none).length ≤ 5 :=
  (C6_search_rag_rounded_sorted_limited [row0] (fun _ => (1 : ℚ)/4) "ko" 5 none
    (by intro r _; constructor <;> norm_num)).1

/-- C8: `get_history` returns messages oldest-first: the backing window is
the session's most recent `limit` messages ordered newest-first, and the
returned rows are a permutation of that window in non-decreasing
`created_at` order — at the timestamp level exactly the reverse of the
window. -/
theorem C8_get_history_chronological :
    ∀ (st : DBState) (sid : String) (limit : ℕ),
      get_history st sid limit =
        (get_history_rows st sid limit).map (fun m => ChatMessage.mk m.role m.content) ∧
      ((history_window st sid limit).map MessageRow.created_at).Sorted (fun a b => b ≤ a) ∧
      (history_window st sid limit).length ≤ limit ∧
      ((get_history_rows st sid limit).map MessageRow.created_at).Sorted (· ≤ ·) ∧
      List.Perm (get_history_rows st sid limit) (history_window st sid limit) ∧
      (get_history_rows st sid limit).map MessageRow.created_at =
        ((history_window st sid limit).map MessageRow.created_at).reverse := by
  intro st sid limit
  haveI : IsTotal MessageRow (fun a b => b.created_at ≤ a.created_at) :=
    ⟨fun a b => le_total b.created_at a.created_at⟩
  haveI : IsTrans MessageRow (fun a b => b.created_at ≤ a.created_at) :=
    ⟨fun _ _ _ hab hbc => le_trans hbc hab⟩
  haveI : IsTotal MessageRow (fun a b => a.created_at ≤ b.created_at) :=
    ⟨fun a b => le_total a.created_at b.created_at⟩
  haveI : IsTrans MessageRow (fun a b => a.created_at ≤ b.created_at) :=
    ⟨fun _ _ _ hab hbc => le_trans hab hbc⟩
  have hwin : (history_window st sid limit).Pairwise
      (fun a b => b.created_at ≤ a.created_at) := by
    unfold history_window
    exact (List.sorted_insertionSort _ _).sublist (List.take_sublist _ _)
  have hrows : (get_history_rows st sid limit).Pairwise
      (fun a b => a.created_at ≤ b.created_at) :=
    List.sorted_insertionSort _ _
  have hperm : List.Perm (get_history_rows st sid limit) (history_window st sid limit) :=
    List.perm_insertionSort _ _
  have hwinmap : ((history_window st sid limit).map MessageRow.created_at).Pairwise
      (fun a b : ℕ => b ≤ a) :=
    hwin.map _ fun _ _ h => h
  have hrowsmap : ((get_history_rows st sid limit).map MessageRow.created_at).Pairwise
      (fun a b : ℕ => a ≤ b) :=
    hrows.map _ fun _ _ h => h
  refine ⟨rfl, hwinmap, ?_, hrowsmap, hperm, ?_⟩
  · unfold history_window
    rw [List.length_take]
    exact min_le_left _ _
  · have hrevsorted : (((history_window st sid limit).map MessageRow.created_at).reverse).Pairwise
        (fun a b : ℕ => a ≤ b) :=
      (List.pairwise_reverse).mpr hwinmap
    have hpm : List.Perm ((get_history_rows st sid limit).map MessageRow.created_at)
        (((history_window st sid limit).map MessageRow.created_at).reverse) :=
      (hperm.map _).trans (((history_window st sid limit).map MessageRow.created_at).reverse_perm).symm
    exact List.eq_of_perm_of_sorted hpm hrowsmap hrevsorted

/-- Full case analysis of one blocking pipeline run: every run is one of the
seven source-level outcomes, each with its explicit result, trace and final
database state. -/
theorem run_rag_pipeline_cases (env : PipelineEnv) (sid query lang : String)
    (rl hl : ℕ) (stbl : Option String) :
    let docs := search_rag env.store env.dist lang rl stbl
    let payload := chat_llm_payload_messages
      (get_history env.db0 sid hl ++ [ChatMessage.mk "user" query]) (build_context docs) "ko"
    let userRow : MessageRow := ⟨env.id1, sid, "user", query, lang, [], env.now1⟩
    let db1 := db_update_session (db_insert_message env.db0 userRow) sid env.now1
    let sdocs := project_docs docs
    let A1 := Action.getHistory sid hl
    let A2 := Action.saveMessage sid "user" query lang []
    let A3 := Action.searchRag query lang rl stbl
    let A4 := Action.llmChat payload false
    let r := run_rag_pipeline env sid query lang rl hl stbl
    r = ⟨.error (.db "history query failed"), [A1], env.db0⟩ ∨
    r = ⟨.error (.db "insert failed"), [A1, A2], env.db0⟩ ∨
    r = ⟨.error (.db "update failed"), [A1, A2], db_insert_message env.db0 userRow⟩ ∨
    (∃ m, env.retrievalFault = some m ∧
      r = ⟨.error m.toPErr, [A1, A2, A3], db1⟩) ∨
    (∃ m, env.llmRes = .error m ∧
      r = ⟨.error m.toPErr, [A1, A2, A3, A4], db1⟩) ∨
    (∃ answer, env.llmRes = .ok answer ∧
      (r = ⟨.error (.db "insert failed"),
          [A1, A2, A3, A4, Action.saveMessage sid "assistant" answer lang sdocs], db1⟩ ∨
       r = ⟨.error (.db "update failed"),
          [A1, A2, A3, A4, Action.saveMessage sid "assistant" answer lang sdocs],
          db_insert_message db1 ⟨env.id2, sid, "assistant", answer, lang, sdocs, env.now2⟩⟩ ∨
       r = ⟨.ok (answer, docs),
          [A1, A2, A3, A4, Action.saveMessage sid "assistant" answer lang sdocs],
          db_update_session
            (db_insert_message db1 ⟨env.id2, sid, "assistant", answer, lang, sdocs, env.now2⟩)
            sid env.now2⟩)) := by
  have h1 : ¬("user" ≠ "user" ∧ "user" ≠ "assistant") := by simp
  have h2 : ¬("assistant" ≠ "user" ∧ "assistant" ≠ "assistant") := by simp
  unfold run_rag_pipeline save_message
  dsimp only
  simp only [if_neg h1, if_neg h2]
  by_cases hh : env.histFault = true
  · simp only [if_pos hh]
    simp
  · simp only [if_neg hh]
    by_cases hui : env.userFault.insertFails = true
    · simp only [if_pos hui]
      simp
    · simp only [if_neg hui]
      by_cases huu : env.userFault.updateFails = true
      · simp only [if_pos huu]
        simp
      · simp only [if_neg huu]
        rcases hrf : env.retrievalFault with _ | m
        · simp only [hrf]
          rcases hlr : env.llmRes with m | answer
          · simp only [hlr]
            simp
          · simp only [hlr]
            by_cases hai : env.asstFault.insertFails = true
            · simp only [if_pos hai]
              simp
            · simp only [if_neg hai]
              by_cases hau : env.asstFault.updateFails = true
              · simp only [if_pos hau]
                simp
              · simp only [if_neg hau]
                simp
        · simp only [hrf]
          simp

/-- Full case analysis of one streaming pipeline run: every run is one of
the eight source-level outcomes, each with its explicit events, error,
trace and final database state. -/
theorem run_rag_pipeline_stream_cases (env : PipelineEnv) (sid query lang : String)
    (rl hl : ℕ) (stbl : Option String) :
    let docs := search_rag env.store env.dist lang rl stbl
    let payload := chat_llm_payload_messages
      (get_history env.db0 sid hl ++ [ChatMessage.mk "user" query]) (build_context docs) "ko"
    let userRow : MessageRow := ⟨env.id1, sid, "user", query, lang, [], env.now1⟩
    let db1 := db_update_session (db_insert_message env.db0 userRow) sid env.now1
    let sdocs := project_docs docs
    let toks := (chat_llm_stream_decode env.llmLines).1
    let full := String.join toks
    let A1 := Action.getHistory sid hl
    let A2 := Action.saveMessage sid "user" query lang []
    let A3 := Action.searchRag query lang rl stbl
    let A4 := Action.llmChat payload true
    let A5 := Action.saveMessage sid "assistant" full lang sdocs
    let asstRow : MessageRow := ⟨env.id2, sid, "assistant", full, lang, sdocs, env.now2⟩
    let evPartial := [Event.docs sdocs] ++ toks.map Event.token
    let evFull := evPartial ++ [Event.done]
    let r := run_rag_pipeline_stream env sid query lang rl hl stbl
    r = ⟨[], some (.db "history query failed"), [A1], env.db0⟩ ∨
    r = ⟨[], some (.db "insert failed"), [A1, A2], env.db0⟩ ∨
    r = ⟨[], some (.db "update failed"), [A1, A2], db_insert_message env.db0 userRow⟩ ∨
    (∃ m, env.retrievalFault = some m ∧
      r = ⟨[], some m.toPErr, [A1, A2, A3], db1⟩) ∨
    (∃ m, (chat_llm_stream_decode env.llmLines).2 = .failed m ∧
      r = ⟨evPartial, some (.http m), [A1, A2, A3, A4], db1⟩) ∨
    ((chat_llm_stream_decode env.llmLines).2 = .completed ∧
      (r = ⟨evFull, some (.db "insert failed"), [A1, A2, A3, A4, A5], db1⟩ ∨
       r = ⟨evFull, some (.db "update failed"), [A1, A2, A3, A4, A5],
          db_insert_message db1 asstRow⟩ ∨
       r = ⟨evFull, none, [A1, A2, A3, A4, A5],
          db_update_session (db_insert_message db1 asstRow) sid env.now2⟩)) := by
  have h1 : ¬("user" ≠ "user" ∧ "user" ≠ "assistant") := by simp
  have h2 : ¬("assistant" ≠ "user" ∧ "assistant" ≠ "assistant") := by simp
  unfold run_rag_pipeline_stream save_message
  dsimp only
  simp only [if_neg h1, if_neg h2]
  by_cases hh : env.histFault = true
  · simp only [if_pos hh]
    simp
  · simp only [if_neg hh]
    by_cases hui : env.userFault.insertFails = true
    · simp only [if_pos hui]
      simp
    · simp only [if_neg hui]
      by_cases huu : env.userFault.updateFails = true
      · simp only [if_pos huu]
        simp
      · simp only [if_neg huu]
        rcases hrf : env.retrievalFault with _ | m
        · simp only [hrf]
          rcases hdec : (chat_llm_stream_decode env.llmLines).2 with _ | m
          · simp only [hdec]
            by_cases hai : env.asstFault.insertFails = true
            · simp only [if_pos hai]
              simp [hdec]
            · simp only [if_neg hai]
              by_cases hau : env.asstFault.updateFails = true
              · simp only [if_pos hau]
                simp [hdec]
              · simp only [if_neg hau]
                simp [hdec]
          · simp only [hdec]
            simp [hdec]
        · simp only [hrf]
          simp

theorem tokensOf_map_token (toks : List String) :
    List.filterMap
      (fun e => match e with | Event.token c => some c | _ => none)
      (toks.map Event.token) = toks := by
  induction toks with
  | nil => rfl
  | cons c cs ih => simp [ih]

theorem tokensOf_shape (ds : List SourceDoc) (toks : List String) :
    tokensOf (Event.docs ds :: (toks.map Event.token ++ [Event.done])) = toks := by
  unfold tokensOf
  rw [List.filterMap_cons, List.filterMap_append]
  simp only [tokensOf_map_token]
  simp

/-- C5: in both pipeline variants, whenever a completion-service call is
issued, the trace begins with exactly history fetch, user save, retrieval,
completion call — the user save strictly precedes the call — and the user
message row is present in the final database state of the run whatever
happens afterwards (in particular when the completion service fails). -/
theorem C5_user_saved_before_completion :
    (∀ env sid query lang rl hl stbl p s,
      Action.llmChat p s ∈ (run_rag_pipeline env sid query lang rl hl stbl).trace →
        (run_rag_pipeline env sid query lang rl hl stbl).trace.take 4 =
          [Action.getHistory sid hl,
           Action.saveMessage sid "user" query lang [],
           Action.searchRag query lang rl stbl,
           Action.llmChat p s] ∧
        (⟨env.id1, sid, "user", query, lang, [], env.now1⟩ : MessageRow) ∈
          (run_rag_pipeline env sid query lang rl hl stbl).db.chat_messages) ∧
    (∀ env sid query lang rl hl stbl p s,
      Action.llmChat p s ∈ (run_rag_pipeline_stream env sid query lang rl hl stbl).trace →
        (run_rag_pipeline_stream env sid query lang rl hl stbl).trace.take 4 =
          [Action.getHistory sid hl,
           Action.saveMessage sid "user" query lang [],
           Action.searchRag query lang rl stbl,
           Action.llmChat p s] ∧
        (⟨env.id1, sid, "user", query, lang, [], env.now1⟩ : MessageRow) ∈
          (run_rag_pipeline_stream env sid query lang rl hl stbl).db.chat_messages) := by
  constructor
  · intro env sid query lang rl hl stbl p s hmem
    have hc := run_rag_pipeline_cases env sid query lang rl hl stbl
    dsimp only at hc
    rcases hc with h | h | h | ⟨m, hm, h⟩ | ⟨m, hm, h⟩ | ⟨answer, ha, h | h | h⟩ <;>
        rw [h] at hmem ⊢ <;> simp at hmem <;>
      · obtain ⟨hp, hs⟩ := hmem
        subst hp; subst hs
        exact ⟨rfl, by simp [db_update_session, db_insert_message]⟩
  · intro env sid query lang rl hl stbl p s hmem
    have hc := run_rag_pipeline_stream_cases env sid query lang rl hl stbl
    dsimp only at hc
    rcases hc with h | h | h | ⟨m, hm, h⟩ | ⟨m, hm, h⟩ | ⟨hdec, h | h | h⟩ <;>
        rw [h] at hmem ⊢ <;> simp at hmem <;>
      · obtain ⟨hp, hs⟩ := hmem
        subst hp; subst hs
        exact ⟨rfl, by simp [db_update_session, db_insert_message]⟩

set_option maxRecDepth 100000 in
/-- Witness for C5: the fault-free blocking run over the empty store reaches
the completion call with the user turn already persisted. -/
theorem C5_user_saved_before_completion_witness :
    (run_rag_pipeline envNoDocs "S1" "질문" "ko" 5 10 none).trace.take 4 =
      [Action.getHistory "S1" 10,
       Action.saveMessage "S1" "user" "질문" "ko" [],
       Action.searchRag "질문" "ko" 5 none,
       Action.llmChat [ChatMessage.mk "system" (SYSTEM_PROMPTS_get "ko"),
         ChatMessage.mk "user" "질문"] false] ∧
    (⟨1, "S1", "user", "질문", "ko", [], 10⟩ : MessageRow) ∈
      (run_rag_pipeline envNoDocs "S1" "질문" "ko" 5 10 none).db.chat_messages :=
  C5_user_saved_before_completion.1 envNoDocs "S1" "질문" "ko" 5 10 none
    [ChatMessage.mk "system" (SYSTEM_PROMPTS_get "ko"), ChatMessage.mk "user" "질문"]
    false (by decide)

/-- C4: every successful streaming run emits exactly one `docs` event, then
one `token` event per delta, then exactly one terminal `done` event, and the
assistant message persisted at the end of the run carries exactly the
concatenation of the token events' contents. -/
theorem C4_stream_success_event_shape :
    ∀ env sid query lang rl hl stbl,
      (run_rag_pipeline_stream env sid query lang rl hl stbl).err = none →
        (run_rag_pipeline_stream env sid query lang rl hl stbl).events =
          [Event.docs (project_docs (search_rag env.store env.dist lang rl stbl))] ++
            ((chat_llm_stream_decode env.llmLines).1).map Event.token ++ [Event.done] ∧
        tokensOf (run_rag_pipeline_stream env sid query lang rl hl stbl).events =
          (chat_llm_stream_decode env.llmLines).1 ∧
        (⟨env.id2, sid, "assistant",
            String.join (tokensOf (run_rag_pipeline_stream env sid query lang rl hl stbl).events),
            lang, project_docs (search_rag env.store env.dist lang rl stbl),
            env.now2⟩ : MessageRow) ∈
          (run_rag_pipeline_stream env sid query lang rl hl stbl).db.chat_messages := by
  intro env sid query lang rl hl stbl herr
  have hc := run_rag_pipeline_stream_cases env sid query lang rl hl stbl
  dsimp only at hc
  rcases hc with h | h | h | ⟨m, hm, h⟩ | ⟨m, hm, h⟩ | ⟨hdec, h | h | h⟩ <;>
    rw [h] at herr ⊢ <;> simp at herr ⊢
  rw [tokensOf_shape]
  refine ⟨rfl, ?_⟩
  simp [db_update_session, db_insert_message]

set_option maxRecDepth 100000 in
/-- Witness for C4: the fault-free streaming run over the empty store. -/
theorem C4_stream_success_event_shape_witness :
    (run_rag_pipeline_stream envNoDocs "S2" "질문" "ko" 5 10 none).events =
      [Event.docs (project_docs (search_rag envNoDocs.store envNoDocs.dist "ko" 5 none))] ++
        ((chat_llm_stream_decode envNoDocs.llmLines).1).map Event.token ++ [Event.done] :=
  (C4_stream_success_event_shape envNoDocs "S2" "질문" "ko" 5 10 none (by decide)).1

/-- C7: if the streaming completion call fails mid-stream, the run emits no
`done` event and persists no new assistant message — every message row in
the final state either pre-existed or is the user turn. -/
theorem C7_midstream_failure_no_done_no_persist :
    ∀ env sid query lang rl hl stbl m,
      (chat_llm_stream_decode env.llmLines).2 = .failed m →
        Event.done ∉ (run_rag_pipeline_stream env sid query lang rl hl stbl).events ∧
        ∀ mr ∈ (run_rag_pipeline_stream env sid query lang rl hl stbl).db.chat_messages,
          mr ∈ env.db0.chat_messages ∨ mr.role = "user" := by
  intro env sid query lang rl hl stbl m hfail
  have hc := run_rag_pipeline_stream_cases env sid query lang rl hl stbl
  dsimp only at hc
  rcases hc with h | h | h | ⟨m', hm, h⟩ | ⟨m', hm, h⟩ | ⟨hdec, h | h | h⟩ <;>
      rw [h] <;> dsimp only <;> first
    | (rw [hdec] at hfail; exact absurd hfail (by simp))
    | · constructor
        · simp
        · intro mr hmr
          simp [db_update_session, db_insert_message] at hmr
          rcases hmr with hmr | hmr
          · exact Or.inl hmr
          · subst hmr; exact Or.inr rfl
    | · constructor
        · simp
        · intro mr hmr
          exact Or.inl hmr

set_option maxRecDepth 100000 in
/-- Witness for C7: an upstream connection that drops after one delta makes
the run end without a `done` event and without persisting an assistant turn. -/
theorem C7_midstream_failure_no_done_no_persist_witness :
    Event.done ∉ (run_rag_pipeline_stream
      { envNoDocs with llmLines := [.line "부분 답변" false, .netError "connection reset"] }
      "S3" "질문" "ko" 5 10 none).events ∧
    ∀ mr ∈ (run_rag_pipeline_stream
      { envNoDocs with llmLines := [.line "부분 답변" false, .netError "connection reset"] }
      "S3" "질문" "ko" 5 10 none).db.chat_messages,
      mr ∈ ({ envNoDocs with
        llmLines := [.line "부분 답변" false, .netError "connection reset"] } : PipelineEnv).db0.chat_messages ∨
      mr.role = "user" :=
  C7_midstream_failure_no_done_no_persist
    { envNoDocs with llmLines := [.line "부분 답변" false, .netError "connection reset"] }
    "S3" "질문" "ko" 5 10 none "connection reset" (by decide)

/-- Helper for C10: through the pipeline the role passed to `save_message`
is always the literal "user" or "assistant", so a pipeline run never raises
the role `ValidationError`: every propagated pipeline error is a database
failure, an HTTP failure, or a `KeyError` from a malformed 2xx body. -/
theorem run_rag_pipeline_error_not_validation
    (env : PipelineEnv) (sid query lang : String) (rl hl : ℕ) (stbl : Option String)
    (e : PErr) :
    (run_rag_pipeline env sid query lang rl hl stbl).res = .error e →
      ∀ m, e ≠ PErr.validation m := by
  intro h m
  have hc := run_rag_pipeline_cases env sid query lang rl hl stbl
  dsimp only at hc
  rcases hc with hr | hr | hr | ⟨m', hm, hr⟩ | ⟨m', hm, hr⟩ | ⟨answer, ha, hr | hr | hr⟩ <;>
      rw [hr] at h <;> simp at h <;> first
    | (simp [← h]; done)
    | (rcases m' with s | k <;> simp [ExtErr.toPErr] at h <;> simp [← h])

set_option maxRecDepth 100000 in
/-- C10 counterexample: the `except KeyError` of `rag_chat` (`src/main.py`
lines 83-84) wraps the whole `try` block, so a `KeyError` raised inside the
pipeline by a malformed 2xx completion body (`result["message"]` absent,
`src/tools/llm.py` line 118; likewise `resp.json()["embeddings"]` in
`src/tools/embedder.py` line 16) is returned as the 422 parameter-missing
response although no request field is missing — so the parameter-missing
signal is not distinct from internal failures, this pipeline error does not
map to the server-fault signal, and the `/chat` router, which maps the same
failure to the 500 server fault, does not implement the same mapping. -/
theorem C10_counterexample_internal_keyerror_as_422 :
    rag_chat { envNoDocs with llmRes := .error (.keyError "message") }
        ⟨some "S1", some "질문", none, none, none, none⟩ =
      .paramMissing "message" ∧
    chat_route { envNoDocs with llmRes := .error (.keyError "message") }
        ⟨some "S1", some "질문", none, none, none, none⟩ =
      .serverFault (errMessage (.keyError "message")) ∧
    ChatEndpointResponse.paramMissing "message" ≠
      ChatEndpointResponse.serverFault (errMessage (.keyError "message")) ∧
    (ChatEndpointResponse.paramMissing "message").status = 422 ∧
    (ChatEndpointResponse.serverFault (errMessage (.keyError "message"))).status = 500 :=
  ⟨rfl, rfl, by decide, rfl, rfl⟩

/-- C10 (amended): a request missing a required field fails with the 422
parameter-missing response at both endpoints, and role validation errors
cannot propagate from them since the pipeline fixes the roles it saves.  At
the `/chat` router every pipeline error maps to the generic 500 server-fault
response carrying only the exception's message.  At the `rag_chat` endpoint
the same holds for every pipeline error EXCEPT a `KeyError` (malformed 2xx
body from the embedding or completion service): the blanket `except
KeyError` maps those to the 422 parameter-missing response too, so there the
422 signal is not exclusive to client faults and the two endpoints disagree
on exactly that error path. -/
theorem C10_endpoint_error_mapping :
    ∀ env body,
      ((body.session_id = none ∨ body.query = none) ↔
        ∃ f, chat_route env body = .paramMissing f) ∧
      ((body.session_id = none ∨ body.query = none) →
        ∃ f, rag_chat env body = .paramMissing f) ∧
      (∀ f d, (ChatEndpointResponse.paramMissing f).status = 422 ∧
        (ChatEndpointResponse.serverFault d).status = 500 ∧
        (ChatEndpointResponse.paramMissing f).status ≠
          (ChatEndpointResponse.serverFault d).status) ∧
      (∀ sid q e, body.session_id = some sid → body.query = some q →
        (run_rag_pipeline env sid q (body.lang.getD "ko") (body.rag_limit.getD 5)
            (body.history_limit.getD 10) body.source_table).res = .error e →
          chat_route env body = .serverFault (errMessage e) ∧
          (∀ vm, e ≠ PErr.validation vm) ∧
          ((∀ k, e ≠ PErr.keyError k) →
            rag_chat env body = .serverFault (errMessage e))) ∧
      (∀ sid q k, body.session_id = some sid → body.query = some q →
        (run_rag_pipeline env sid q (body.lang.getD "ko") (body.rag_limit.getD 5)
            (body.history_limit.getD 10) body.source_table).res = .error (.keyError k) →
          rag_chat env body = .paramMissing k) := by
  intro env body
  refine ⟨⟨?_, ?_⟩, ?_,
    fun f d => ⟨rfl, rfl, by norm_num [ChatEndpointResponse.status]⟩, ?_, ?_⟩
  · intro h
    rcases hbs : body.session_id with _ | sid
    · exact ⟨"session_id", by simp [chat_route, hbs]⟩
    · rcases hbq : body.query with _ | q
      · exact ⟨"query", by simp [chat_route, hbs, hbq]⟩
      · exfalso
        rcases h with h | h
        · rw [hbs] at h; exact absurd h (by simp)
        · rw [hbq] at h; exact absurd h (by simp)
  · rintro ⟨f, hf⟩
    by_contra hnone
    push_neg at hnone
    obtain ⟨hs, hq⟩ := hnone
    rcases hbs : body.session_id with _ | sid
    · exact hs hbs
    · rcases hbq : body.query with _ | q
      · exact hq hbq
      · rw [chat_route, hbs, hbq] at hf
        dsimp only at hf
        rcases hres : (run_rag_pipeline env sid q (body.lang.getD "ko") (body.rag_limit.getD 5)
            (body.history_limit.getD 10) body.source_table).res with e | ok
        · rw [hres] at hf; simp at hf
        · rw [hres] at hf; simp at hf
  · intro h
    rcases hbs : body.session_id with _ | sid
    · exact ⟨"session_id", by simp [rag_chat, hbs]⟩
    · rcases hbq : body.query with _ | q
      · exact ⟨"query", by simp [rag_chat, hbs, hbq]⟩
      · exfalso
        rcases h with h | h
        · rw [hbs] at h; exact absurd h (by simp)
        · rw [hbq] at h; exact absurd h (by simp)
  · intro sid q e hbs hbq hres
    refine ⟨?_, run_rag_pipeline_error_not_validation env sid q _ _ _ _ e hres, ?_⟩
    · rw [chat_route, hbs, hbq]
      dsimp only
      rw [hres]
    · intro hk
      rcases e with vm | dm | hm | k
      · rw [rag_chat, hbs, hbq]; dsimp only; rw [hres]
      · rw [rag_chat, hbs, hbq]; dsimp only; rw [hres]
      · rw [rag_chat, hbs, hbq]; dsimp only; rw [hres]
      · exact absurd rfl (hk k)
  · intro sid q k hbs hbq hres
    rw [rag_chat, hbs, hbq]
    dsimp only
    rw [hres]

set_option maxRecDepth 100000 in
/-- Witness for C10: a complete request whose pipeline fails with an HTTP
error maps to the 500 server-fault response at both endpoints. -/
theorem C10_endpoint_error_mapping_witness :
    chat_route { envNoDocs with llmRes := .error (.http "llm unreachable") }
        ⟨some "S1", some "질문", none, none, none, none⟩ =
      .serverFault (errMessage (.http "llm unreachable")) ∧
    rag_chat { envNoDocs with llmRes := .error (.http "llm unreachable") }
        ⟨some "S1", some "질문", none, none, none, none⟩ =
      .serverFault (errMessage (.http "llm unreachable")) := by
  have h := (C10_endpoint_error_mapping
      { envNoDocs with llmRes := .error (.http "llm unreachable") }
      ⟨some "S1", some "질문", none, none, none, none⟩).2.2.2.1 "S1" "질문"
    (.http "llm unreachable") rfl rfl (by rfl)
  exact ⟨h.1, h.2.2 (by intro k; simp)⟩

end EftAgent
